import Mathlib

/-!
Shallow embedding of the subscription-state reconciliation logic of the
vpn-backend-service repository: the Supabase data-access class
`UserSupabase` (methods `updateSubscriptionStatus`,
`shouldAllowSubscriptionUpdate`, `getUserWithSubscription`) and the
Mongoose statics `userSchema.statics.shouldAllowSubscriptionUpdate`,
`userSchema.statics.hasActiveSubscription` and
`userSchema.statics.updateSubscriptionStatus` of `src/models/User.js`.

Conventions of the embedding:
* A nullable / possibly-undefined JavaScript value is an `Option`.
  A snapshot field that is `none` stands for an SQL `NULL` column, a
  candidate field that is `none` stands for an absent (`undefined`)
  property.  JavaScript strict equality `===` between two such values is
  therefore false when both are absent (`null === undefined` is false),
  which `jsStrictEq` reproduces.
* Timestamps are integers (milliseconds since the epoch), as produced by
  `new Date(x).getTime()`; comparison of two valid `Date` objects is
  integer comparison.  In the one subtraction the code performs,
  JavaScript coerces a `null` operand to `0`, which the embedding
  reproduces with `Option.getD _ 0`.
* The row read by `getUserWithSubscription` (and written back by the
  `update` call) is `UserRow`, with the column names of the `users`
  table selected there.
* Database effects are made explicit: the outcome of the user lookup is
  a `LookupResult` argument, and `updateSubscriptionStatus` returns,
  besides the row it hands back to its caller, a `Bool` recording
  whether a database write was issued.
-/

/-- Row of the `users` table as selected by
`UserSupabase.getUserWithSubscription`. -/
structure UserRow where
  id : String
  firebase_uid : String
  email : String
  display_name : Option String
  stripe_customer_id : Option String
  subscription_status : Option String
  subscription_plan : Option String
  subscription_end_date : Option Int
  created_at : Int
  updated_at : Int
deriving DecidableEq, Repr

/-- The `subscriptionData` argument of
`UserSupabase.updateSubscriptionStatus`, as the webhook handlers build it:
`{ customerId, status, plan, endDate }`. -/
structure SubscriptionData where
  customerId : Option String
  status : Option String
  plan : Option String
  endDate : Option Int
deriving DecidableEq, Repr

/-- Outcome of the `getUserWithSubscription` call inside the two guarded
methods: the row, no row (`PGRST116`), or a thrown database error. -/
inductive LookupResult where
  | found : UserRow → LookupResult
  | notFound : LookupResult
  | dbError : LookupResult
deriving DecidableEq, Repr

/-- JavaScript strict equality `===` on two possibly-absent strings, where
the left side absent is `null` and the right side absent is `undefined`
(or vice versa): equal only when both are present and equal, since
`null === undefined` is false. -/
def jsStrictEq (a b : Option String) : Bool :=
  match a, b with
  | some x, some y => x = y
  | _, _ => false

/-- One day in milliseconds: `24 * 60 * 60 * 1000` in the source. -/
def dayInMs : Int := 24 * 60 * 60 * 1000

/-- The row produced by the `client.from('users').update({...})` call of
`UserSupabase.updateSubscriptionStatus`: the four subscription columns are
set from `subscriptionData` and `updated_at` is stamped; every other
column of the row is untouched. -/
def writtenRow (currentUser : UserRow) (subscriptionData : SubscriptionData)
    (updateTimestamp : Int) : UserRow :=
  { currentUser with
    stripe_customer_id := subscriptionData.customerId
    subscription_status := subscriptionData.status
    subscription_plan := subscriptionData.plan
    subscription_end_date := subscriptionData.endDate
    updated_at := updateTimestamp }

/-- `UserSupabase.updateSubscriptionStatus(userId, subscriptionData)`
(src/unnamed/part_010, lines 169-235).  The user lookup outcome is passed
in as `lookup` and the wall clock as `now`.  Result: `Except.error` when
the code throws, otherwise `Except.ok (row, wrote)` where `row` is the
value returned to the caller and `wrote` records whether the database
`update` was issued. -/
def updateSubscriptionStatus (lookup : LookupResult)
    (subscriptionData : SubscriptionData) (now : Int) :
    Except String (UserRow × Bool) :=
  match lookup with
  | .dbError => .error "db error"
  | .notFound => .error "User not found"
  | .found currentUser =>
    -- CRITICAL: never override an active subscription with another active one
    if jsStrictEq currentUser.subscription_status (some "active")
        && jsStrictEq subscriptionData.status (some "active") then
      .ok (currentUser, false)
    else
      let currentEndDate := currentUser.subscription_end_date
      let newEndDate := subscriptionData.endDate
      -- if we have a current end date and the new one is older, skip
      if (match currentEndDate, newEndDate with
          | some c, some n => decide (n < c)
          | _, _ => false) then
        .ok (currentUser, false)
      else
        -- same status and a current end date: check for a meaningful update
        if jsStrictEq currentUser.subscription_status subscriptionData.status
            && currentEndDate.isSome then
          if jsStrictEq subscriptionData.status (some "active") then
            let timeDiff := ((newEndDate.getD 0) - (currentEndDate.getD 0)).natAbs
            if timeDiff < dayInMs.natAbs then
              .ok (currentUser, false)
            else
              .ok (writtenRow currentUser subscriptionData now, true)
          else
            .ok (writtenRow currentUser subscriptionData now, true)
        else
          .ok (writtenRow currentUser subscriptionData now, true)

/-- Body of `UserSupabase.shouldAllowSubscriptionUpdate` once the current
user row has been found (src/unnamed/part_010, lines 245-275). -/
def shouldAllowCore (currentUser : UserRow) (newStatus : Option String)
    (newEndDate : Option Int) : Bool :=
  -- CRITICAL: never allow overriding an active subscription with another active one
  if jsStrictEq currentUser.subscription_status (some "active")
      && jsStrictEq newStatus (some "active") then
    false
  else
    let currentEndDate := currentUser.subscription_end_date
    let newEndDateObj := newEndDate
    -- active to cancelled: always allow
    if jsStrictEq currentUser.subscription_status (some "active")
        && jsStrictEq newStatus (some "cancelled") then
      true
    -- inactive to active: always allow
    else if jsStrictEq currentUser.subscription_status (some "inactive")
        && jsStrictEq newStatus (some "active") then
      true
    else
      match currentEndDate, newEndDateObj with
      -- both end dates provided: allow iff the new one is newer
      | some c, some n => decide (n > c)
      -- no current end date but a new one: allow
      | none, some _ => true
      -- default: allow iff the status differs
      | _, none => ! jsStrictEq currentUser.subscription_status newStatus

/-- `UserSupabase.shouldAllowSubscriptionUpdate(userId, newStatus,
newEndDate)` (src/unnamed/part_010, lines 238-280): returns `false` when
the user is missing and, through the surrounding `catch`, when the lookup
throws. -/
def shouldAllowSubscriptionUpdate (lookup : LookupResult)
    (newStatus : Option String) (newEndDate : Option Int) : Bool :=
  match lookup with
  | .dbError => false
  | .notFound => false
  | .found currentUser => shouldAllowCore currentUser newStatus newEndDate

/-- Condition under which control in `updateSubscriptionStatus` reaches
the inner one-day "no significant change" test (and hence evaluates the
subtraction `newEndDate - currentEndDate`): the active-guard did not
return, the older-end-date skip did not return, the statuses agree with a
current end date present, and the candidate status is `'active'`. -/
def oneDayBranchReached (currentUser : UserRow)
    (subscriptionData : SubscriptionData) : Bool :=
  !(jsStrictEq currentUser.subscription_status (some "active")
      && jsStrictEq subscriptionData.status (some "active"))
  && !(match currentUser.subscription_end_date, subscriptionData.endDate with
       | some c, some n => decide (n < c)
       | _, _ => false)
  && (jsStrictEq currentUser.subscription_status subscriptionData.status
      && currentUser.subscription_end_date.isSome)
  && jsStrictEq subscriptionData.status (some "active")

/-- Disjunction of the two reachable skip conditions of
`updateSubscriptionStatus`: the active-guard (line 180) and the
older-end-date skip (line 190).  The third skip (the inner one-day test)
is unreachable, so the method writes exactly when this condition is
false. -/
def updateSkipCond (currentUser : UserRow) (subscriptionData : SubscriptionData) : Bool :=
  (jsStrictEq currentUser.subscription_status (some "active")
    && jsStrictEq subscriptionData.status (some "active"))
  || (match currentUser.subscription_end_date, subscriptionData.endDate with
      | some c, some n => decide (n < c)
      | _, _ => false)

/-- The `subscription` sub-document of the Mongoose user schema. -/
structure MongoSubscription where
  status : Option String
  planId : Option String
  subscriptionId : Option String
  startDate : Option Int
  endDate : Option Int
deriving DecidableEq, Repr

/-- The fields of a Mongoose `User` document that the subscription
statics read or write (src/models/User.js). -/
structure MongoUser where
  stripeCustomerId : Option String
  isSubscribed : Bool
  subscriptionStatus : Option String
  currentPlan : Option String
  stripeSubscriptionId : Option String
  subscriptionStartDate : Option Int
  subscriptionEndDate : Option Int
  subscription : Option MongoSubscription
  updatedAt : Int
deriving DecidableEq, Repr

/-- The `subscriptionData` argument of the Mongoose
`updateSubscriptionStatus` static: `{ status, planId, subscriptionId,
startDate, endDate, customerId }`. -/
structure MongoSubscriptionData where
  status : Option String
  planId : Option String
  subscriptionId : Option String
  startDate : Option Int
  endDate : Option Int
  customerId : Option String
deriving DecidableEq, Repr

/-- `userSchema.statics.hasActiveSubscription` on a found user
(src/models/User.js, lines 158-174). -/
def hasActiveSubscription (user : Option MongoUser) : Bool :=
  match user with
  | none => false
  | some u =>
    if (match u.subscription with
        | some s => jsStrictEq s.status (some "active")
        | none => false) then
      true
    else
      u.isSubscribed && jsStrictEq u.subscriptionStatus (some "active")

/-- `userSchema.statics.shouldAllowSubscriptionUpdate(firebaseUid,
newStatus)` (src/models/User.js, lines 176-194): allows when the user
does not exist, otherwise blocks exactly an active subscription being
moved to a non-active status. -/
def mongoShouldAllowSubscriptionUpdate (user : Option MongoUser)
    (newStatus : Option String) : Bool :=
  match user with
  | none => true
  | some u =>
    if hasActiveSubscription (some u) && ! jsStrictEq newStatus (some "active") then
      false
    else
      true

/-- `userSchema.statics.updateSubscriptionStatus(firebaseUid,
subscriptionData)` applied to a found document (src/models/User.js, lines
120-156): replaces the `subscription` sub-document and the legacy mirror
fields from `subscriptionData`, stamps `updatedAt`, and sets
`stripeCustomerId` only when `subscriptionData.customerId` is provided. -/
def mongoUpdateSubscriptionStatus (user : MongoUser)
    (subscriptionData : MongoSubscriptionData) (now : Int) : MongoUser :=
  { user with
    subscription := some
      { status := subscriptionData.status
        planId := subscriptionData.planId
        subscriptionId := subscriptionData.subscriptionId
        startDate := subscriptionData.startDate
        endDate := subscriptionData.endDate }
    isSubscribed := jsStrictEq subscriptionData.status (some "active")
    subscriptionStatus := subscriptionData.status
    currentPlan := subscriptionData.planId
    stripeSubscriptionId := subscriptionData.subscriptionId
    subscriptionStartDate := subscriptionData.startDate
    subscriptionEndDate := subscriptionData.endDate
    updatedAt := now
    stripeCustomerId :=
      match subscriptionData.customerId with
      | some c => some c
      | none => user.stripeCustomerId }

instance {ε α : Type} [DecidableEq ε] [DecidableEq α] : DecidableEq (Except ε α) := fun a b =>
  match a, b with
  | .error e, .error f =>
    if h : e = f then isTrue (by rw [h]) else isFalse (by intro hh; injection hh; contradiction)
  | .ok x, .ok y =>
    if h : x = y then isTrue (by rw [h]) else isFalse (by intro hh; injection hh; contradiction)
  | .error _, .ok _ => isFalse (by intro hh; cases hh)
  | .ok _, .error _ => isFalse (by intro hh; cases hh)

/-- A `users` row with every column not under test held at a fixed value:
used to build concrete snapshots in witnesses and counterexamples. -/
def mkRow (status : Option String) (endDate : Option Int) : UserRow :=
  { id := "u1"
    firebase_uid := "fb1"
    email := "u@example.com"
    display_name := none
    stripe_customer_id := some "cus_initial"
    subscription_status := status
    subscription_plan := some "premium"
    subscription_end_date := endDate
    created_at := 0
    updated_at := 0 }

/-- If JavaScript strict equality holds against the literal `some x`, the
other side is `some x`. -/
lemma jsStrictEq_some_right {a : Option String} {x : String}
    (h : jsStrictEq a (some x) = true) : a = some x := by
  cases a with
  | none => simp [jsStrictEq] at h
  | some z => simp [jsStrictEq] at h; rw [h]

/-- `updateSubscriptionStatus` on a found user either skips (exactly when
`updateSkipCond` holds) or issues the full-replacement write: the inner
one-day branch never produces a skip. -/
lemma update_found_spec (currentUser : UserRow) (subscriptionData : SubscriptionData)
    (now : Int) :
    updateSubscriptionStatus (.found currentUser) subscriptionData now =
      if updateSkipCond currentUser subscriptionData then
        .ok (currentUser, false)
      else
        .ok (writtenRow currentUser subscriptionData now, true) := by
  unfold updateSubscriptionStatus updateSkipCond
  cases hguard : jsStrictEq currentUser.subscription_status (some "active")
      && jsStrictEq subscriptionData.status (some "active") with
  | true => simp [hguard]
  | false =>
    cases hstale : (match currentUser.subscription_end_date, subscriptionData.endDate with
        | some c, some n => decide (n < c)
        | _, _ => false) with
    | true => simp [hguard, hstale]
    | false =>
      cases hsame : jsStrictEq currentUser.subscription_status subscriptionData.status
          && currentUser.subscription_end_date.isSome with
      | false => simp [hguard, hstale, hsame]
      | true =>
        cases hact : jsStrictEq subscriptionData.status (some "active") with
        | false => simp [hguard, hstale, hsame, hact]
        | true =>
          exfalso
          rw [Bool.and_eq_true] at hsame
          have hda : subscriptionData.status = some "active" := jsStrictEq_some_right hact
          have hcur : jsStrictEq currentUser.subscription_status (some "active") = true := by
            rw [← hda]; exact hsame.1
          rw [hcur, hact] at hguard
          simp at hguard

/-- C1: active-guard — whenever the current snapshot and the candidate
both carry status `active`, `shouldAllowSubscriptionUpdate` decides
REJECT and `updateSubscriptionStatus` returns the current snapshot
without writing, whatever the two `periodEnd` values are. -/
theorem active_guard_rejects (currentUser : UserRow)
    (subscriptionData : SubscriptionData) (now : Int)
    (hc : currentUser.subscription_status = some "active")
    (hn : subscriptionData.status = some "active") :
    shouldAllowCore currentUser subscriptionData.status subscriptionData.endDate = false ∧
    updateSubscriptionStatus (.found currentUser) subscriptionData now
      = .ok (currentUser, false) := by
  constructor
  · unfold shouldAllowCore
    rw [hc, hn]
    rfl
  · rw [update_found_spec]
    unfold updateSkipCond
    rw [hc, hn]
    rfl

/-- Witness for C1 at a concrete active/active pair whose candidate
period end is strictly later than the current one. -/
theorem active_guard_rejects_witness :
    shouldAllowCore (mkRow (some "active") (some 100))
      (SubscriptionData.mk (some "c") (some "active") (some "p") (some 200)).status
      (SubscriptionData.mk (some "c") (some "active") (some "p") (some 200)).endDate = false ∧
    updateSubscriptionStatus (.found (mkRow (some "active") (some 100)))
      (SubscriptionData.mk (some "c") (some "active") (some "p") (some 200)) 3
      = .ok (mkRow (some "active") (some 100), false) :=
  active_guard_rejects (mkRow (some "active") (some 100))
    (SubscriptionData.mk (some "c") (some "active") (some "p") (some 200)) 3 rfl rfl

/-- C2: the decision gate allows an active-to-cancelled transition
unconditionally, but the guarded write `updateSubscriptionStatus` skips
that same transition when the candidate period end is older than the
current one: at current `{active, end 2592000000}` and candidate
`{cancelled, end 86400000}` the gate answers true while the write path
returns the unchanged active row without writing. -/
theorem cancellation_blocked_by_stale_date_skip :
    shouldAllowCore (mkRow (some "active") (some 2592000000))
      (some "cancelled") (some 86400000) = true ∧
    updateSubscriptionStatus (.found (mkRow (some "active") (some 2592000000)))
      (SubscriptionData.mk (some "cus_initial") (some "cancelled") none (some 86400000)) 5
      = .ok (mkRow (some "active") (some 2592000000), false) := by
  decide

/-- C9: the inner one-day "no significant change" branch of
`updateSubscriptionStatus` is unreachable: its path condition is false
for every current row and every candidate, because it requires both
statuses to be `active`, which the earlier active-guard already
intercepted. -/
theorem one_day_branch_unreachable (currentUser : UserRow)
    (subscriptionData : SubscriptionData) :
    oneDayBranchReached currentUser subscriptionData = false := by
  unfold oneDayBranchReached
  cases hact : jsStrictEq subscriptionData.status (some "active") with
  | false => simp [hact]
  | true =>
    cases hsame : jsStrictEq currentUser.subscription_status subscriptionData.status with
    | false => simp [hsame]
    | true =>
      have hda : subscriptionData.status = some "active" := jsStrictEq_some_right hact
      have hcur : jsStrictEq currentUser.subscription_status (some "active") = true := by
        rw [← hda]; exact hsame
      simp [hact, hcur]

/-- C10: for a missing user row, and equally when the snapshot read
throws, the Supabase `shouldAllowSubscriptionUpdate` answers false for
every candidate status and end date (fail closed, no exception), while
the Mongoose `shouldAllowSubscriptionUpdate` answers true for a missing
user. -/
theorem missing_user_fails_closed_supabase_open_mongoose
    (newStatus : Option String) (newEndDate : Option Int)
    (mongoStatus : Option String) :
    shouldAllowSubscriptionUpdate .notFound newStatus newEndDate = false ∧
    shouldAllowSubscriptionUpdate .dbError newStatus newEndDate = false ∧
    mongoShouldAllowSubscriptionUpdate none mongoStatus = true :=
  ⟨rfl, rfl, rfl⟩

/-- C3 counterexample: a reactivation candidate whose period end is older
than the current one is rejected — current `{cancelled, end 100}` with
candidate `{active, end 50}` gets REJECT, although the claim requires
ALLOW for every non-active current and every active candidate. -/
theorem activation_rejected_for_older_end_date :
    shouldAllowCore (mkRow (some "cancelled") (some 100)) (some "active") (some 50) = false := by
  decide

/-- C3 amended: an `active` candidate against a non-active current
snapshot is always allowed when the current status is `inactive`; from
`cancelled`, `past_due` or `trialing` it is allowed except when both
period ends are present and the candidate's is not strictly later. -/
theorem activation_from_nonactive_characterization (currentUser : UserRow)
    (newEndDate : Option Int) (s : String)
    (hs : currentUser.subscription_status = some s)
    (hmem : s = "inactive" ∨ s = "cancelled" ∨ s = "past_due" ∨ s = "trialing") :
    shouldAllowCore currentUser (some "active") newEndDate =
      (if s = "inactive" then true
       else match currentUser.subscription_end_date, newEndDate with
            | some c, some n => decide (n > c)
            | _, _ => true) := by
  have hna : s ≠ "active" := by
    rcases hmem with h | h | h | h <;> subst h <;> decide
  unfold shouldAllowCore
  rw [hs]
  by_cases hin : s = "inactive"
  · subst hin
    cases currentUser.subscription_end_date <;> cases newEndDate <;> simp [jsStrictEq]
  · have h1 : jsStrictEq (some s) (some "active") = false := by
      simp [jsStrictEq, hna]
    have h2 : jsStrictEq (some s) (some "inactive") = false := by
      simp [jsStrictEq, hin]
    rw [if_neg hin]
    simp only [h1, h2, Bool.false_and, Bool.and_false, Bool.false_eq_true, if_false]
    cases currentUser.subscription_end_date <;> cases newEndDate <;>
      simp [jsStrictEq, h1, h2]

/-- Witness for C3 amended at current `{cancelled, end 100}` and
candidate `{active, end 200}`. -/
theorem activation_from_nonactive_characterization_witness :
    shouldAllowCore (mkRow (some "cancelled") (some 100)) (some "active") (some 200) =
      (if "cancelled" = "inactive" then true
       else match (mkRow (some "cancelled") (some 100)).subscription_end_date,
              (some (200 : Int) : Option Int) with
            | some c, some n => decide (n > c)
            | _, _ => true) :=
  activation_from_nonactive_characterization (mkRow (some "cancelled") (some 100))
    (some 200) "cancelled" rfl (Or.inr (Or.inl rfl))

/-- C4 counterexample: current `{cancelled, end 50}` with a same-status
candidate carrying no period end is rejected by the decision gate, yet
`updateSubscriptionStatus` still issues the write — the claim's "no
write occurs" fails. -/
theorem same_status_absent_end_still_written :
    shouldAllowCore (mkRow (some "cancelled") (some 50)) (some "cancelled") none = false ∧
    updateSubscriptionStatus (.found (mkRow (some "cancelled") (some 50)))
      (SubscriptionData.mk (some "c2") (some "cancelled") (some "p") none) 7
      = .ok (writtenRow (mkRow (some "cancelled") (some 50))
          (SubscriptionData.mk (some "c2") (some "cancelled") (some "p") none) 7, true) := by
  decide

/-- C4 amended: for equal non-active statuses the decision gate accepts
exactly when both period ends are present with the candidate's strictly
later, or the current one is absent while the candidate supplies one —
in particular it rejects a candidate with no period end; the guarded
write `updateSubscriptionStatus`, however, still persists such a
candidate. -/
theorem same_status_gate_strict_freshness (currentUser : UserRow) (s : String)
    (newEndDate : Option Int) (subscriptionData : SubscriptionData) (now : Int)
    (hs : currentUser.subscription_status = some s)
    (hna : s ≠ "active")
    (hds : subscriptionData.status = some s)
    (hnoend : subscriptionData.endDate = none) :
    shouldAllowCore currentUser (some s) newEndDate =
      (match currentUser.subscription_end_date, newEndDate with
       | some c, some n => decide (n > c)
       | none, some _ => true
       | _, none => false) ∧
    updateSubscriptionStatus (.found currentUser) subscriptionData now
      = .ok (writtenRow currentUser subscriptionData now, true) := by
  have h1 : jsStrictEq (some s) (some "active") = false := by
    simp [jsStrictEq, hna]
  constructor
  · unfold shouldAllowCore
    rw [hs]
    simp only [h1, Bool.false_and, Bool.and_false, Bool.false_eq_true, if_false]
    cases currentUser.subscription_end_date <;> cases newEndDate <;> simp [jsStrictEq]
  · rw [update_found_spec]
    have hskip : updateSkipCond currentUser subscriptionData = false := by
      unfold updateSkipCond
      rw [hs, hds, hnoend]
      cases currentUser.subscription_end_date <;> simp [h1]
    rw [hskip]
    rfl

/-- Witness for C4 amended at current `{cancelled, end 50}`, gate
candidate end `60`, write candidate `{cancelled, no end}`. -/
theorem same_status_gate_strict_freshness_witness :
    shouldAllowCore (mkRow (some "cancelled") (some 50)) (some "cancelled") (some 60) =
      (match (mkRow (some "cancelled") (some 50)).subscription_end_date,
          (some (60 : Int) : Option Int) with
       | some c, some n => decide (n > c)
       | none, some _ => true
       | _, none => false) ∧
    updateSubscriptionStatus (.found (mkRow (some "cancelled") (some 50)))
      (SubscriptionData.mk (some "c9") (some "cancelled") (some "p") none) 7
      = .ok (writtenRow (mkRow (some "cancelled") (some 50))
          (SubscriptionData.mk (some "c9") (some "cancelled") (some "p") none) 7, true) :=
  same_status_gate_strict_freshness (mkRow (some "cancelled") (some 50)) "cancelled"
    (some 60) (SubscriptionData.mk (some "c9") (some "cancelled") (some "p") none) 7
    rfl (by decide) rfl rfl

/-- C5 counterexample: at current `{active, end 1000}` and candidate
`{cancelled, end 10}` the decision gate answers ALLOW while the guarded
write skips and returns the unchanged row — the two embedded decision
procedures are not extensionally equal. -/
theorem gate_and_write_disagree :
    shouldAllowSubscriptionUpdate (.found (mkRow (some "active") (some 1000)))
      (some "cancelled") (some 10) = true ∧
    updateSubscriptionStatus (.found (mkRow (some "active") (some 1000)))
      (SubscriptionData.mk (some "c") (some "cancelled") none (some 10)) 3
      = .ok (mkRow (some "active") (some 1000), false) := by
  decide

/-- C5 amended: the guarded write persists the candidate exactly when its
own skip condition — active-guard or both-period-ends-with-older-candidate
— is false; this write condition is the decision actually applied by
`updateSubscriptionStatus`, and it differs from
`shouldAllowSubscriptionUpdate`. -/
theorem update_writes_iff (currentUser : UserRow)
    (subscriptionData : SubscriptionData) (now : Int) :
    updateSubscriptionStatus (.found currentUser) subscriptionData now
      = .ok (writtenRow currentUser subscriptionData now, true)
      ↔ updateSkipCond currentUser subscriptionData = false := by
  rw [update_found_spec]
  cases h : updateSkipCond currentUser subscriptionData with
  | false => simp
  | true => simp

/-- C6 counterexample: a candidate status outside the five recognized
values gets an ordinary ALLOW from the decision gate — no
`InvalidCandidate` error exists anywhere in the code, contradicting the
claimed error taxonomy. -/
theorem unrecognized_status_allowed_normally :
    shouldAllowCore (mkRow (some "inactive") none) (some "incomplete") none = true := by
  decide

/-- C6 amended: the decision function never raises for any candidate
status — a present but unrecognized status is processed by the ordinary
freshness/status-difference rules (and an absent period end never
raises), so an unrecognized status can even be allowed. -/
theorem unrecognized_status_normal_result (currentUser : UserRow) (s : String)
    (newEndDate : Option Int)
    (hur : s ∉ (["active", "inactive", "cancelled", "past_due", "trialing"] : List String)) :
    shouldAllowCore currentUser (some s) newEndDate =
      (match currentUser.subscription_end_date, newEndDate with
       | some c, some n => decide (n > c)
       | none, some _ => true
       | _, none => ! jsStrictEq currentUser.subscription_status (some s)) := by
  have hna : s ≠ "active" := by intro h; exact hur (by rw [h]; simp)
  have hnc : s ≠ "cancelled" := by intro h; exact hur (by rw [h]; simp)
  have h1 : jsStrictEq (some s) (some "active") = false := by
    simp [jsStrictEq, hna]
  have h2 : jsStrictEq (some s) (some "cancelled") = false := by
    simp [jsStrictEq, hnc]
  unfold shouldAllowCore
  simp only [h1, h2, Bool.and_false, Bool.false_eq_true, if_false]

/-- Witness for C6 amended at the unrecognized status `incomplete`. -/
theorem unrecognized_status_normal_result_witness :
    shouldAllowCore (mkRow (some "inactive") none) (some "incomplete") none =
      (match (mkRow (some "inactive") none).subscription_end_date, (none : Option Int) with
       | some c, some n => decide (n > c)
       | none, some _ => true
       | _, none => ! jsStrictEq (mkRow (some "inactive") none).subscription_status
           (some "incomplete")) :=
  unrecognized_status_normal_result (mkRow (some "inactive") none) "incomplete" none
    (by decide)

/-- C7: a rejected update is silent and leaves the row untouched — on a
found user, `updateSubscriptionStatus` either returns the unchanged
current row with no write issued and no error raised, or it issues the
full-replacement write; rejection is never an exceptional outcome. -/
theorem rejection_is_silent (currentUser : UserRow)
    (subscriptionData : SubscriptionData) (now : Int) :
    updateSubscriptionStatus (.found currentUser) subscriptionData now
      = .ok (currentUser, false) ∨
    updateSubscriptionStatus (.found currentUser) subscriptionData now
      = .ok (writtenRow currentUser subscriptionData now, true) := by
  rw [update_found_spec]
  cases h : updateSkipCond currentUser subscriptionData with
  | false => right; simp
  | true => left; simp

/-- C8 counterexample: the Mongoose `updateSubscriptionStatus` keeps the
stored `stripeCustomerId` when the candidate omits `customerId` — the
persisted snapshot does not take that field from the candidate. -/
theorem mongo_keeps_customer_id_when_absent :
    (mongoUpdateSubscriptionStatus
        (MongoUser.mk (some "cus_old") true (some "active") (some "premium")
          (some "sub_1") (some 0) (some 100)
          (some (MongoSubscription.mk (some "active") (some "premium") (some "sub_1")
            (some 0) (some 100))) 0)
        (MongoSubscriptionData.mk (some "cancelled") none none none none none)
        9).stripeCustomerId
      = some "cus_old" := by
  decide

/-- C8 amended: the Supabase write is a genuine full replacement — on any
issued write the stored row takes `status`, `periodEnd`, `customerId` and
`plan` entirely from the candidate (absent fields included), stamps
`updated_at` with the decision time, and leaves every other column
unchanged; the Mongoose variant instead keeps the existing customer id
when the candidate omits one. -/
theorem supabase_write_full_replacement (currentUser : UserRow)
    (subscriptionData : SubscriptionData) (now : Int) (r : UserRow)
    (h : updateSubscriptionStatus (.found currentUser) subscriptionData now
      = .ok (r, true)) :
    r.subscription_status = subscriptionData.status ∧
    r.subscription_end_date = subscriptionData.endDate ∧
    r.stripe_customer_id = subscriptionData.customerId ∧
    r.subscription_plan = subscriptionData.plan ∧
    r.updated_at = now ∧
    r.id = currentUser.id ∧
    r.firebase_uid = currentUser.firebase_uid ∧
    r.email = currentUser.email ∧
    r.display_name = currentUser.display_name ∧
    r.created_at = currentUser.created_at := by
  rw [update_found_spec] at h
  by_cases hc : updateSkipCond currentUser subscriptionData = true
  · rw [if_pos hc] at h
    simp at h
  · rw [if_neg hc] at h
    simp only [Except.ok.injEq, Prod.mk.injEq, and_true] at h
    subst h
    exact ⟨rfl, rfl, rfl, rfl, rfl, rfl, rfl, rfl, rfl, rfl⟩

/-- Witness for C8 amended at a first activation written over an
inactive row with no end date. -/
theorem supabase_write_full_replacement_witness :
    (writtenRow (mkRow (some "inactive") none)
        (SubscriptionData.mk (some "cus_new") (some "active") (some "premium") (some 1000))
        7).subscription_status
      = (SubscriptionData.mk (some "cus_new") (some "active") (some "premium")
          (some 1000)).status ∧
    (writtenRow (mkRow (some "inactive") none)
        (SubscriptionData.mk (some "cus_new") (some "active") (some "premium") (some 1000))
        7).subscription_end_date
      = (SubscriptionData.mk (some "cus_new") (some "active") (some "premium")
          (some 1000)).endDate ∧
    (writtenRow (mkRow (some "inactive") none)
        (SubscriptionData.mk (some "cus_new") (some "active") (some "premium") (some 1000))
        7).stripe_customer_id
      = (SubscriptionData.mk (some "cus_new") (some "active") (some "premium")
          (some 1000)).customerId ∧
    (writtenRow (mkRow (some "inactive") none)
        (SubscriptionData.mk (some "cus_new") (some "active") (some "premium") (some 1000))
        7).subscription_plan
      = (SubscriptionData.mk (some "cus_new") (some "active") (some "premium")
          (some 1000)).plan ∧
    (writtenRow (mkRow (some "inactive") none)
        (SubscriptionData.mk (some "cus_new") (some "active") (some "premium") (some 1000))
        7).updated_at = 7 ∧
    (writtenRow (mkRow (some "inactive") none)
        (SubscriptionData.mk (some "cus_new") (some "active") (some "premium") (some 1000))
        7).id = (mkRow (some "inactive") none).id ∧
    (writtenRow (mkRow (some "inactive") none)
        (SubscriptionData.mk (some "cus_new") (some "active") (some "premium") (some 1000))
        7).firebase_uid = (mkRow (some "inactive") none).firebase_uid ∧
    (writtenRow (mkRow (some "inactive") none)
        (SubscriptionData.mk (some "cus_new") (some "active") (some "premium") (some 1000))
        7).email = (mkRow (some "inactive") none).email ∧
    (writtenRow (mkRow (some "inactive") none)
        (SubscriptionData.mk (some "cus_new") (some "active") (some "premium") (some 1000))
        7).display_name = (mkRow (some "inactive") none).display_name ∧
    (writtenRow (mkRow (some "inactive") none)
        (SubscriptionData.mk (some "cus_new") (some "active") (some "premium") (some 1000))
        7).created_at = (mkRow (some "inactive") none).created_at :=
  supabase_write_full_replacement (mkRow (some "inactive") none)
    (SubscriptionData.mk (some "cus_new") (some "active") (some "premium") (some 1000)) 7
    (writtenRow (mkRow (some "inactive") none)
      (SubscriptionData.mk (some "cus_new") (some "active") (some "premium") (some 1000)) 7)
    (by decide)
